import Mathlib

/-!
Shallow embedding of the LittleLemonAPI Django application
(LittleLemonAPI/serializers.py, views.py, permissions.py).

Database rows become Lean structures, the database state is a record of
row lists, and each request handler becomes a function from the state
(plus the request data) to a response and a successor state.  Money
amounts (Django DecimalField) are modelled as rationals, quantities
(IntegerField) as integers.
-/

namespace LittleLemon

abbrev UserId := Nat
abbrev MenuItemId := Nat
abbrev OrderId := Nat

/-- A menu item row: models.MenuItem {id, title, price, category, featured}. -/
structure MenuItem where
  id : MenuItemId
  title : String
  price : ℚ
  category : Nat
  featured : Bool
deriving Repr, DecidableEq

/-- A cart row: models.Cart {user, menuitem, quantity, unit_price, price}. -/
structure CartRow where
  user : UserId
  menuitem : MenuItemId
  quantity : ℤ
  unit_price : ℚ
  price : ℚ
deriving Repr, DecidableEq

/-- An order row: models.Order {id, user, delivery_crew, status, total, date}. -/
structure Order where
  id : OrderId
  user : UserId
  delivery_crew : Option UserId
  status : Bool
  total : ℚ
  date : Nat
deriving Repr, DecidableEq

/-- An order-item row: models.OrderItem {order, menuitem, quantity, unit_price, price}. -/
structure OrderItem where
  order : OrderId
  menuitem : MenuItemId
  quantity : ℤ
  unit_price : ℚ
  price : ℚ
deriving Repr, DecidableEq

/-- A user account (django.contrib.auth.models.User): {id, username}. -/
structure UserRec where
  id : UserId
  username : String
deriving Repr, DecidableEq

/-- A group (django.contrib.auth.models.Group) together with its user_set. -/
structure Group where
  name : String
  members : List UserId
deriving Repr, DecidableEq

/-- The database state: one list per table. nextOrderId models the
auto-increment primary key used by Order.objects.create. -/
structure DB where
  users : List UserRec
  groups : List Group
  menuItems : List MenuItem
  carts : List CartRow
  orders : List Order
  orderItems : List OrderItem
  nextOrderId : OrderId
deriving Repr, DecidableEq

/-- request.user.groups.filter(name=name).exists() — true when some group
named name has u in its user_set. -/
def inGroup (db : DB) (u : UserId) (name : String) : Bool :=
  db.groups.any (fun g => g.name == name && g.members.contains u)

/-- HTTP status codes used by the handlers. -/
inductive HttpStatus
  | s200
  | s201
  | s204
  | s400
  | s403
  | s404
deriving Repr, DecidableEq

/-! ## CartSerializer (serializers.py)

Validation order follows DRF: field validation resolves the menuitem
primary key first, then the Meta validators (the UniqueTogetherValidator
on (user, menuitem) with message "Item is already in the cart."), then
CartSerializer.validate rejects quantity ≤ 0; on success
CartSerializer.create freezes unit_price from the menu item's current
price and sets price = unit_price * quantity. -/

/-- POST /cart/menu-items/: CartSerializer validation plus create,
returning the error message or the new database state. -/
def cartAdd (db : DB) (u : UserId) (mid : MenuItemId) (qty : ℤ) :
    Except String DB :=
  match db.menuItems.find? (fun m => m.id == mid) with
  | none => .error "Invalid pk - object does not exist."
  | some item =>
    if db.carts.any (fun c => c.user == u && c.menuitem == mid) then
      .error "Item is already in the cart."
    else if qty ≤ 0 then
      .error "Quantity cannot be 0 or less than 0."
    else
      .ok { db with
        carts := db.carts ++
          [{ user := u, menuitem := mid, quantity := qty,
             unit_price := item.price, price := item.price * (qty : ℚ) }] }

/-- The database state after a cart-add request: unchanged when
validation failed. -/
def cartAddDB (db : DB) (u : UserId) (mid : MenuItemId) (qty : ℤ) : DB :=
  match cartAdd db u mid qty with
  | .ok db2 => db2
  | .error _ => db

/-- DELETE /cart/menu-items/ (CartView.delete): 400 "Cart is already
empty." when the caller has no cart rows, else delete them all. -/
def cartClear (db : DB) (u : UserId) : HttpStatus × DB :=
  if (db.carts.filter (fun c => c.user == u)).isEmpty then
    (.s400, db)
  else
    (.s200, { db with carts := db.carts.filter (fun c => !(c.user == u)) })

/-! ## OrderSerializer.create (serializers.py) -/

/-- POST /orders/ (OrderSerializer.create): fail with "Cart is empty"
when the caller has no cart rows; otherwise sum the cart-row prices into
the new order's total, copy each cart row into an order-item, bulk-insert
the order-items and delete the cart rows. -/
def orderCreate (db : DB) (u : UserId) (date : Nat) :
    Except String (DB × Order) :=
  let userCarts := db.carts.filter (fun c => c.user == u)
  if userCarts.isEmpty then
    .error "Cart is empty"
  else
    let total := (userCarts.map (fun c => c.price)).sum
    let order : Order :=
      { id := db.nextOrderId, user := u, delivery_crew := none,
        status := false, total := total, date := date }
    let items := userCarts.map (fun c =>
      { order := order.id, menuitem := c.menuitem, quantity := c.quantity,
        unit_price := c.unit_price, price := c.price : OrderItem })
    .ok ({ db with
            orders := db.orders ++ [order],
            orderItems := db.orderItems ++ items,
            carts := db.carts.filter (fun c => !(c.user == u)),
            nextOrderId := db.nextOrderId + 1 },
         order)

/-- The database state after an order-create request: unchanged when the
serializer raised a validation error. -/
def orderCreateDB (db : DB) (u : UserId) (date : Nat) : DB :=
  match orderCreate db u date with
  | .ok (db2, _) => db2
  | .error _ => db

/-! ## Role-scoped order querysets (views.py) -/

/-- OrdersView.get_queryset: managers see all orders, else customers see
their own, else delivery crew sees orders with a non-null delivery_crew;
with no matching group the class default Order.objects.all() stands. -/
def ordersViewQueryset (db : DB) (u : UserId) : List Order :=
  if inGroup db u "manager" then
    db.orders
  else if inGroup db u "customer" then
    db.orders.filter (fun o => o.user == u)
  else if inGroup db u "delivery_crew" then
    db.orders.filter (fun o => o.delivery_crew.isSome)
  else
    db.orders

/-- SingleOrderView.get_queryset: same branching except the delivery-crew
branch assigns Order.objects.all(). -/
def singleOrderViewQueryset (db : DB) (u : UserId) : List Order :=
  if inGroup db u "manager" then
    db.orders
  else if inGroup db u "customer" then
    db.orders.filter (fun o => o.user == u)
  else if inGroup db u "delivery_crew" then
    db.orders
  else
    db.orders

/-- Result of the single-order GET handler: the found order, or the 404
payload. -/
inductive RetrieveResult
  | ok (o : Order)
  | notFound (message : String)
deriving Repr, DecidableEq

/-- GET /orders/{id} (SingleOrderView.list): narrow the role-scoped
queryset to the requested id; Order.DoesNotExist becomes a 404 with
message "Order not found". -/
def singleOrderRetrieve (db : DB) (u : UserId) (oid : OrderId) :
    RetrieveResult :=
  match (singleOrderViewQueryset db u).find? (fun o => o.id == oid) with
  | some o => .ok o
  | none => .notFound "Order not found"

/-- DELETE /orders/{id}: SingleOrderView.get_permissions installs
IsManager for DELETE, so a non-manager is rejected with 403; a manager
deletes the order found in the queryset (404 when absent). -/
def singleOrderDelete (db : DB) (u : UserId) (oid : OrderId) :
    HttpStatus × DB :=
  if !(inGroup db u "manager") then
    (.s403, db)
  else
    match db.orders.find? (fun o => o.id == oid) with
    | none => (.s404, db)
    | some _ =>
      (.s204, { db with
        orders := db.orders.filter (fun o => !(o.id == oid)),
        orderItems := db.orderItems.filter (fun oi => !(oi.order == oid)) })

/-! ## Group roster management (GroupUsersView, views.py) -/

/-- A roster response: status code plus the message payload. -/
structure RosterResponse where
  status : HttpStatus
  message : String
deriving Repr, DecidableEq

/-- Remove user pk from the user_set of every group named gname
(group.user_set.remove(user); group names are unique in Django, so this
touches the single matching group). -/
def removeMember (groups : List Group) (gname : String) (pk : UserId) :
    List Group :=
  groups.map (fun g =>
    if g.name == gname then
      { g with members := g.members.filter (fun m => !(m == pk)) }
    else g)

/-- DELETE /groups/{gname}/users/{pk} (GroupUsersView.delete): resolve
the user by id (caught User.DoesNotExist gives 404), fetch the group by
name (an absent group raises an uncaught Group.DoesNotExist, modelled as
none), then 400 when the user is not a member, else remove and 200. -/
def groupUsersDelete (db : DB) (gname : String) (pk : UserId) :
    Option (RosterResponse × DB) :=
  match db.users.find? (fun u => u.id == pk) with
  | none =>
    some ({ status := .s404,
            message := "User with id " ++ toString pk ++ " does not exist" },
          db)
  | some user =>
    match db.groups.find? (fun g => g.name == gname) with
    | none => none
    | some g =>
      if g.members.contains pk then
        some ({ status := .s200,
                message := "User " ++ user.username ++
                  " has been removed from " ++ gname ++ " group" },
              { db with groups := removeMember db.groups gname pk })
      else
        some ({ status := .s400,
                message := "User " ++ user.username ++
                  " is not a member of " ++ gname ++ " group" },
              db)

/-- POST /groups/{gname}/users (GroupUsersView.post): resolve the
username (400 when absent), get_or_create the group, add the user to its
user_set (a no-op when already a member) and answer 201. -/
def groupUsersAdd (db : DB) (gname : String) (username : String) :
    RosterResponse × DB :=
  match db.users.find? (fun u => u.username == username) with
  | none =>
    ({ status := .s400,
       message := "User with username " ++ username ++ " does not exist" },
     db)
  | some user =>
    let db2 :=
      if db.groups.any (fun g => g.name == gname) then
        { db with groups := db.groups.map (fun g =>
            if g.name == gname then
              (if g.members.contains user.id then g
               else { g with members := g.members ++ [user.id] })
            else g) }
      else
        { db with groups := db.groups ++ [{ name := gname, members := [user.id] }] }
    ({ status := .s201,
       message := "User " ++ username ++ " has been added to " ++ gname ++ " group" },
     db2)

/-! ## Remaining mutating handlers, needed for the invariant step relation -/

/-- PUT /menu-items/{id} (SingleMenuItemView with MenuItemSerializer):
the default ModelSerializer.update overwrites the writable fields of the
matching menu item. -/
def menuItemUpdate (db : DB) (mid : MenuItemId) (title : String) (p : ℚ)
    (cat : Nat) (feat : Bool) : DB :=
  { db with menuItems := db.menuItems.map (fun m =>
      if m.id == mid then
        { id := m.id, title := title, price := p, category := cat, featured := feat }
      else m) }

/-- PATCH /orders/{id} (SingleOrderView with OrderSerializer): only
delivery_crew and status are writable (user, total, date are read-only);
a partial update leaves an omitted field as it was. -/
def orderPatch (db : DB) (oid : OrderId) (crew : Option (Option UserId))
    (st : Option Bool) : DB :=
  { db with orders := db.orders.map (fun o =>
      if o.id == oid then
        { o with delivery_crew := crew.getD o.delivery_crew,
                 status := st.getD o.status }
      else o) }

/-- One state-mutating API request: each constructor is one of the
handlers above applied to an arbitrary request. -/
inductive Step : DB → DB → Prop
  | addCart (u : UserId) (mid : MenuItemId) (qty : ℤ) {db db2 : DB} :
      cartAdd db u mid qty = .ok db2 → Step db db2
  | clearCart (u : UserId) (db : DB) :
      Step db (cartClear db u).2
  | createOrder (u : UserId) (d : Nat) {db db2 : DB} (o : Order) :
      orderCreate db u d = .ok (db2, o) → Step db db2
  | deleteOrder (u : UserId) (oid : OrderId) (db : DB) :
      Step db (singleOrderDelete db u oid).2
  | updateMenuItem (mid : MenuItemId) (title : String) (p : ℚ) (cat : Nat)
      (feat : Bool) (db : DB) :
      Step db (menuItemUpdate db mid title p cat feat)
  | patchOrder (oid : OrderId) (crew : Option (Option UserId))
      (st : Option Bool) (db : DB) :
      Step db (orderPatch db oid crew st)
  | addRoster (gname username : String) (db : DB) :
      Step db (groupUsersAdd db gname username).2
  | delRoster (gname : String) (pk : UserId) {db db2 : DB} (r : RosterResponse) :
      groupUsersDelete db gname pk = some (r, db2) → Step db db2

/-- The price invariant of the data model: every cart row and every
order-item row has price = unit_price * quantity. -/
def priceInv (db : DB) : Prop :=
  (∀ c ∈ db.carts, c.price = c.unit_price * (c.quantity : ℚ)) ∧
  (∀ oi ∈ db.orderItems, oi.price = oi.unit_price * (oi.quantity : ℚ))

/-- The current price of the menu item with id mid, when it exists. -/
def menuPriceAt (db : DB) (mid : MenuItemId) : Option ℚ :=
  (db.menuItems.find? (fun m => m.id == mid)).map (fun m => m.price)

/-! ## Helper lemmas -/

/-- Rows satisfying p are gone after filtering for its negation. -/
theorem filter_not_filter_eq_nil {α : Type} (p : α → Bool) (l : List α) :
    (l.filter (fun a => !(p a))).filter p = [] := by
  induction l with
  | nil => rfl
  | cons a l ih =>
    by_cases h : p a <;> simp [List.filter_cons, h, ih]

/-! ## Concrete states used by witnesses -/

/-- A concrete database: user 1 is a customer holding the spec's worked
example cart (unit 10.00 at qty 2 and unit 1.99 at qty 3); user 2 is a
customer with an empty cart. -/
def c1db : DB :=
  { users := [{ id := 1, username := "alice" }, { id := 2, username := "bob" }]
    groups := [{ name := "customer", members := [1, 2] }]
    menuItems :=
      [{ id := 10, title := "Pizza", price := 10, category := 1, featured := false },
       { id := 11, title := "Coke", price := 199/100, category := 1, featured := false }]
    carts :=
      [{ user := 1, menuitem := 10, quantity := 2, unit_price := 10, price := 20 },
       { user := 1, menuitem := 11, quantity := 3, unit_price := 199/100, price := 597/100 }]
    orders := []
    orderItems := []
    nextOrderId := 1 }

/-! ## Claim theorems -/

/-- Claim C1: on a non-empty cart, order creation succeeds with a total
equal to the sum of the caller's cart-row prices, appends one order-item
per prior cart row copying menuitem, quantity, unit_price and price, and
leaves the caller's cart empty. -/
theorem orderCreate_nonempty_cart_spec (db : DB) (u : UserId) (d : Nat)
    (h : db.carts.filter (fun c => c.user == u) ≠ []) :
    ∃ db2 o, orderCreate db u d = .ok (db2, o) ∧
      o.total = ((db.carts.filter (fun c => c.user == u)).map (fun c => c.price)).sum ∧
      db2.orderItems = db.orderItems ++
        (db.carts.filter (fun c => c.user == u)).map (fun c =>
          { order := o.id, menuitem := c.menuitem, quantity := c.quantity,
            unit_price := c.unit_price, price := c.price : OrderItem }) ∧
      db2.carts.filter (fun c => c.user == u) = [] ∧
      (db2.orderItems.length = db.orderItems.length +
        (db.carts.filter (fun c => c.user == u)).length) ∧
      db2.orders = db.orders ++ [o] := by
  have hne : (db.carts.filter (fun c => c.user == u)).isEmpty = false := by
    cases hl : db.carts.filter (fun c => c.user == u) with
    | nil => exact absurd hl h
    | cons a t => rfl
  unfold orderCreate
  simp only [hne, Bool.false_eq_true, if_false]
  exact ⟨_, _, rfl, rfl, rfl, filter_not_filter_eq_nil _ _, by simp, rfl⟩

/-- Witness for C1, the worked example of the spec: cart rows
(unit 10.00, qty 2) and (unit 1.99, qty 3) give total 25.97, two
order-items and an empty cart. -/
theorem orderCreate_nonempty_cart_spec_witness :
    ∃ db2 o, orderCreate c1db 1 0 = .ok (db2, o) ∧
      o.total = ((c1db.carts.filter (fun c => c.user == 1)).map (fun c => c.price)).sum ∧
      db2.orderItems = c1db.orderItems ++
        (c1db.carts.filter (fun c => c.user == 1)).map (fun c =>
          { order := o.id, menuitem := c.menuitem, quantity := c.quantity,
            unit_price := c.unit_price, price := c.price : OrderItem }) ∧
      db2.carts.filter (fun c => c.user == 1) = [] ∧
      (db2.orderItems.length = c1db.orderItems.length +
        (c1db.carts.filter (fun c => c.user == 1)).length) ∧
      db2.orders = c1db.orders ++ [o] :=
  orderCreate_nonempty_cart_spec c1db 1 0 (by decide)

/-- Claim C6: with an empty cart, order creation fails with the
validation message "Cart is empty" and the database is unchanged (no
Order or OrderItem row is created). -/
theorem orderCreate_empty_cart_rejected (db : DB) (u : UserId) (d : Nat)
    (h : db.carts.filter (fun c => c.user == u) = []) :
    orderCreate db u d = .error "Cart is empty" ∧
    orderCreateDB db u d = db := by
  have he : orderCreate db u d = .error "Cart is empty" := by
    unfold orderCreate
    simp [h]
  exact ⟨he, by simp [orderCreateDB, he]⟩

/-- Witness for C6 on a user with no cart rows in a non-empty database. -/
theorem orderCreate_empty_cart_rejected_witness :
    orderCreate c1db 2 0 = .error "Cart is empty" ∧
    orderCreateDB c1db 2 0 = c1db :=
  orderCreate_empty_cart_rejected c1db 2 0 (by decide)

/-- A concrete database: user 3 is a delivery-crew member and the single
order has no delivery_crew assignment. -/
def c2db : DB :=
  { users := [{ id := 3, username := "dave" }]
    groups := [{ name := "delivery_crew", members := [3] }]
    menuItems := []
    carts := []
    orders := [{ id := 1, user := 1, delivery_crew := none, status := false,
                 total := 0, date := 0 }]
    orderItems := []
    nextOrderId := 2 }

/-- A concrete database: user 1 belongs to both the manager and the
customer group; the single order belongs to user 2, who is only a
customer. -/
def c3db : DB :=
  { users := [{ id := 1, username := "mia" }, { id := 2, username := "carl" }]
    groups := [{ name := "manager", members := [1] },
               { name := "customer", members := [1, 2] }]
    menuItems := []
    carts := []
    orders := [{ id := 1, user := 2, delivery_crew := none, status := false,
                 total := 0, date := 0 }]
    orderItems := []
    nextOrderId := 2 }

/-- Claim C2 counterexample: for a delivery-crew caller the single-order
queryset is all orders while the order-list queryset keeps only orders
with a delivery_crew assignment, so the two differ on an order whose
delivery_crew is null — and retrieval of that order succeeds rather than
404ing. -/
theorem singleOrder_queryset_counterexample :
    inGroup c2db 3 "delivery_crew" = true ∧
    singleOrderViewQueryset c2db 3 ≠ ordersViewQueryset c2db 3 ∧
    singleOrderRetrieve c2db 3 1 =
      .ok { id := 1, user := 1, delivery_crew := none, status := false,
            total := 0, date := 0 } := by
  refine ⟨rfl, by decide, rfl⟩

/-- Claim C2 (amended): the two role-scoped querysets coincide for every
caller except one in the pure delivery-crew branch (not manager, not
customer, in delivery_crew), for whom single-order retrieval uses the
unfiltered all-orders queryset; in all cases a requested id absent from
the retrieval queryset yields a 404 with message "Order not found". -/
theorem singleOrder_queryset_spec (db : DB) (u : UserId) (oid : OrderId) :
    (inGroup db u "manager" = true ∨ inGroup db u "customer" = true ∨
        inGroup db u "delivery_crew" = false →
      singleOrderViewQueryset db u = ordersViewQueryset db u) ∧
    (inGroup db u "manager" = false → inGroup db u "customer" = false →
        inGroup db u "delivery_crew" = true →
      singleOrderViewQueryset db u = db.orders) ∧
    ((∀ o ∈ singleOrderViewQueryset db u, ¬ o.id = oid) ↔
      singleOrderRetrieve db u oid = .notFound "Order not found") := by
  refine ⟨?_, ?_, ?_⟩
  · intro hcase
    by_cases hm : inGroup db u "manager" = true
    · simp [singleOrderViewQueryset, ordersViewQueryset, hm]
    · rw [Bool.not_eq_true] at hm
      by_cases hc : inGroup db u "customer" = true
      · simp [singleOrderViewQueryset, ordersViewQueryset, hm, hc]
      · rw [Bool.not_eq_true] at hc
        have hd : inGroup db u "delivery_crew" = false := by
          rcases hcase with h | h | h
          · rw [h] at hm; exact absurd hm (by simp)
          · rw [h] at hc; exact absurd hc (by simp)
          · exact h
        simp [singleOrderViewQueryset, ordersViewQueryset, hm, hc, hd]
  · intro hm hc hd
    simp [singleOrderViewQueryset, hm, hc, hd]
  · unfold singleOrderRetrieve
    cases hfind : (singleOrderViewQueryset db u).find? (fun o => o.id == oid) with
    | none =>
      simp only [hfind]
      constructor
      · intro _; trivial
      · intro _ o hmem
        have hno := List.find?_eq_none.mp hfind o hmem
        simpa using hno
    | some o =>
      have hmem := List.mem_of_find?_eq_some hfind
      have hp := List.find?_some hfind
      simp only [hfind]
      constructor
      · intro hall
        exact absurd (by simpa using hp) (hall o hmem)
      · intro hcontr
        exact absurd hcontr (by simp)

/-- Witness for the amended C2 on the delivery-crew database: the
retrieval queryset is all orders, and a missing id answers 404 with
message "Order not found". -/
theorem singleOrder_queryset_spec_witness :
    singleOrderViewQueryset c2db 3 = c2db.orders ∧
    singleOrderRetrieve c2db 3 2 = .notFound "Order not found" :=
  ⟨(singleOrder_queryset_spec c2db 3 2).2.1 rfl rfl rfl,
   (singleOrder_queryset_spec c2db 3 2).2.2.mp (by decide)⟩

/-- Claim C3 counterexample: user 1 belongs to the customer group, yet
because they also belong to the manager group the order list shows an
order of user 2. -/
theorem ordersView_customer_scope_counterexample :
    inGroup c3db 1 "customer" = true ∧
    ¬ (∀ o ∈ ordersViewQueryset c3db 1, o.user = 1) := by
  refine ⟨rfl, ?_⟩
  intro hall
  have h1 := hall { id := 1, user := 2, delivery_crew := none, status := false,
                    total := 0, date := 0 } (by decide)
  simp at h1

/-- Claim C3 (amended): a caller in the customer group who is not also in
the manager group only ever sees orders with order.user equal to the
caller in the order list. -/
theorem ordersView_customer_scope (db : DB) (u : UserId)
    (hm : inGroup db u "manager" = false)
    (hc : inGroup db u "customer" = true) :
    ∀ o ∈ ordersViewQueryset db u, o.user = u := by
  intro o ho
  simp [ordersViewQueryset, hm, hc, List.mem_filter] at ho
  exact ho.2

/-- Witness for the amended C3: user 2 of c3db is a customer and not a
manager; the single order in their queryset is indeed their own. -/
theorem ordersView_customer_scope_witness :
    ({ id := 1, user := 2, delivery_crew := none, status := false,
       total := 0, date := 0 } : Order) ∈ ordersViewQueryset c3db 2 ∧
    ({ id := 1, user := 2, delivery_crew := none, status := false,
       total := 0, date := 0 } : Order).user = 2 :=
  ⟨by decide,
   ordersView_customer_scope c3db 2 rfl rfl
     { id := 1, user := 2, delivery_crew := none, status := false,
       total := 0, date := 0 } (by decide)⟩

/-- Claim C4: an authenticated caller in none of the three groups falls
through every branch and gets the class-default queryset, i.e. every
order in the system. -/
theorem ordersView_ungrouped_sees_all (db : DB) (u : UserId)
    (hm : inGroup db u "manager" = false)
    (hc : inGroup db u "customer" = false)
    (hd : inGroup db u "delivery_crew" = false) :
    ordersViewQueryset db u = db.orders := by
  simp [ordersViewQueryset, hm, hc, hd]

/-- Witness for C4: user 7 of c2db belongs to no group and lists all
orders, including the one belonging to user 1. -/
theorem ordersView_ungrouped_sees_all_witness :
    ordersViewQueryset c2db 7 = c2db.orders :=
  ordersView_ungrouped_sees_all c2db 7 rfl rfl rfl

/-- Claim C7: when a cart row for the same (user, menuitem) pair already
exists (and the menu item referenced by it exists, as referential
integrity guarantees), a further add always fails with "Item is already
in the cart." and the database — in particular the existing row — is
unchanged. -/
theorem cartAdd_duplicate_rejected (db : DB) (u : UserId) (mid : MenuItemId)
    (qty : ℤ)
    (hmenu : (db.menuItems.find? (fun m => m.id == mid)).isSome = true)
    (hdup : db.carts.any (fun c => c.user == u && c.menuitem == mid) = true) :
    cartAdd db u mid qty = .error "Item is already in the cart." ∧
    cartAddDB db u mid qty = db := by
  obtain ⟨item, hfind⟩ := Option.isSome_iff_exists.mp hmenu
  have he : cartAdd db u mid qty = .error "Item is already in the cart." := by
    simp [cartAdd, hfind, hdup]
  exact ⟨he, by simp [cartAddDB, he]⟩

/-- Witness for C7: user 1 already has menu item 10 in the cart; adding
it again is rejected and the database is unchanged. -/
theorem cartAdd_duplicate_rejected_witness :
    cartAdd c1db 1 10 5 = .error "Item is already in the cart." ∧
    cartAddDB c1db 1 10 5 = c1db :=
  cartAdd_duplicate_rejected c1db 1 10 5 (by decide) (by decide)

/-- Claim C10: a cart-add request with quantity ≤ 0 fails validation
with some error and persists no cart row. -/
theorem cartAdd_nonpositive_quantity_rejected (db : DB) (u : UserId)
    (mid : MenuItemId) (qty : ℤ) (hq : qty ≤ 0) :
    (∃ msg, cartAdd db u mid qty = .error msg) ∧
    cartAddDB db u mid qty = db := by
  have he : ∃ msg, cartAdd db u mid qty = .error msg := by
    cases hfind : db.menuItems.find? (fun m => m.id == mid) with
    | none =>
      exact ⟨"Invalid pk - object does not exist.", by simp [cartAdd, hfind]⟩
    | some item =>
      by_cases hdup : db.carts.any (fun c => c.user == u && c.menuitem == mid) = true
      · exact ⟨"Item is already in the cart.", by simp [cartAdd, hfind, hdup]⟩
      · rw [Bool.not_eq_true] at hdup
        exact ⟨"Quantity cannot be 0 or less than 0.",
          by simp [cartAdd, hfind, hdup, hq]⟩
  obtain ⟨msg, hmsg⟩ := he
  exact ⟨⟨msg, hmsg⟩, by simp [cartAddDB, hmsg]⟩

/-- Witness for C10: quantity 0 on a fresh (user, menuitem) pair with an
existing menu item is rejected and the cart is unchanged. -/
theorem cartAdd_nonpositive_quantity_rejected_witness :
    (∃ msg, cartAdd c1db 2 11 0 = .error msg) ∧
    cartAddDB c1db 2 11 0 = c1db :=
  cartAdd_nonpositive_quantity_rejected c1db 2 11 0 (by decide)

/-- Claim C9: a caller outside the manager group who sends DELETE on a
single order is answered 403 and the database is unchanged, regardless
of order ownership. -/
theorem singleOrderDelete_non_manager_forbidden (db : DB) (u : UserId)
    (oid : OrderId) (h : inGroup db u "manager" = false) :
    singleOrderDelete db u oid = (.s403, db) := by
  simp [singleOrderDelete, h]

/-- Witness for C9: customer 2 of c3db owns order 1 and is still
rejected with 403 when deleting it. -/
theorem singleOrderDelete_non_manager_forbidden_witness :
    singleOrderDelete c3db 2 1 = (.s403, c3db) :=
  singleOrderDelete_non_manager_forbidden c3db 2 1 rfl

/-- After removing pk from the groups named gname, pk is no longer in
any group of that name. -/
theorem inGroup_removeMember (db : DB) (gname : String) (pk : UserId) :
    inGroup { db with groups := removeMember db.groups gname pk } pk gname = false := by
  simp only [inGroup, removeMember, List.any_eq_false]
  intro g hg
  rw [List.mem_map] at hg
  obtain ⟨g0, hg0, rfl⟩ := hg
  by_cases hn : g0.name == gname
  · simp [hn, List.mem_filter]
  · rw [Bool.not_eq_true] at hn
    simp [hn]

/-- Claim C8: a roster removal with an unknown user id answers 404; with
a known user who is not a member of the (existing) target group it
answers 400 and removes nothing; with a member it removes the membership
and answers 200. -/
theorem groupUsersDelete_spec (db : DB) (gname : String) (pk : UserId)
    (g : Group) (hg : db.groups.find? (fun g2 => g2.name == gname) = some g) :
    (db.users.find? (fun u => u.id == pk) = none →
      groupUsersDelete db gname pk =
        some ({ status := .s404,
                message := "User with id " ++ toString pk ++ " does not exist" },
              db)) ∧
    (∀ user, db.users.find? (fun u2 => u2.id == pk) = some user →
      g.members.contains pk = false →
      groupUsersDelete db gname pk =
        some ({ status := .s400,
                message := "User " ++ user.username ++ " is not a member of "
                  ++ gname ++ " group" }, db)) ∧
    (∀ user, db.users.find? (fun u2 => u2.id == pk) = some user →
      g.members.contains pk = true →
      groupUsersDelete db gname pk =
        some ({ status := .s200,
                message := "User " ++ user.username ++ " has been removed from "
                  ++ gname ++ " group" },
              { db with groups := removeMember db.groups gname pk }) ∧
      inGroup { db with groups := removeMember db.groups gname pk } pk gname
        = false) := by
  refine ⟨?_, ?_, ?_⟩
  · intro hu
    simp [groupUsersDelete, hu]
  · intro user hu hmem
    have hmem2 : pk ∉ g.members := by simpa using hmem
    simp [groupUsersDelete, hu, hg, hmem2]
  · intro user hu hmem
    have hmem2 : pk ∈ g.members := by simpa using hmem
    exact ⟨by simp [groupUsersDelete, hu, hg, hmem2],
           inGroup_removeMember db gname pk⟩

/-- A concrete database for the roster claims: user 2 is a manager and
user 1 is not. -/
def c8db : DB :=
  { users := [{ id := 1, username := "ann" }, { id := 2, username := "ben" }]
    groups := [{ name := "manager", members := [2] }]
    menuItems := []
    carts := []
    orders := []
    orderItems := []
    nextOrderId := 1 }

/-- Witness for C8, member case: removing manager 2 answers 200 and the
membership is gone. -/
theorem groupUsersDelete_spec_witness :
    groupUsersDelete c8db "manager" 2 =
      some ({ status := .s200,
              message := "User " ++ "ben" ++ " has been removed from "
                ++ "manager" ++ " group" },
            { c8db with groups := removeMember c8db.groups "manager" 2 }) ∧
    inGroup { c8db with groups := removeMember c8db.groups "manager" 2 } 2
      "manager" = false :=
  (groupUsersDelete_spec c8db "manager" 2
      { name := "manager", members := [2] } (by decide)).2.2
    { id := 2, username := "ben" } (by decide) (by decide)

/-- The price invariant and row provenance are preserved whenever a step
only keeps (a subset of) the old cart and order-item rows. -/
theorem invariant_mono (db db2 : DB) (hinv : priceInv db)
    (h1 : ∀ c ∈ db2.carts, c ∈ db.carts)
    (h2 : ∀ oi ∈ db2.orderItems, oi ∈ db.orderItems) :
    priceInv db2 ∧
    (∀ c ∈ db2.carts, c ∈ db.carts ∨
      menuPriceAt db c.menuitem = some c.unit_price) ∧
    (∀ oi ∈ db2.orderItems, oi ∈ db.orderItems ∨
      ∃ c ∈ db.carts, oi.menuitem = c.menuitem ∧ oi.quantity = c.quantity ∧
        oi.unit_price = c.unit_price ∧ oi.price = c.price) :=
  ⟨⟨fun c hm => hinv.1 c (h1 c hm), fun oi hm => hinv.2 oi (h2 oi hm)⟩,
   fun c hm => Or.inl (h1 c hm), fun oi hm => Or.inl (h2 oi hm)⟩

/-- Claim C5: every mutating request preserves price = unit_price ×
quantity on all cart and order-item rows; moreover every cart row after
a step is either an untouched pre-step row or was just created with
unit_price frozen from the referenced menu item's current price, and
every order-item row is either an untouched pre-step row or a verbatim
copy of a pre-step cart row — no operation ever recomputes a stored
unit_price. -/
theorem step_preserves_price_invariant (db db2 : DB) (hinv : priceInv db)
    (hs : Step db db2) :
    priceInv db2 ∧
    (∀ c ∈ db2.carts, c ∈ db.carts ∨
      menuPriceAt db c.menuitem = some c.unit_price) ∧
    (∀ oi ∈ db2.orderItems, oi ∈ db.orderItems ∨
      ∃ c ∈ db.carts, oi.menuitem = c.menuitem ∧ oi.quantity = c.quantity ∧
        oi.unit_price = c.unit_price ∧ oi.price = c.price) := by
  cases hs with
  | addCart u mid qty heq =>
    unfold cartAdd at heq
    cases hfind : db.menuItems.find? (fun m => m.id == mid) with
    | none =>
      rw [hfind] at heq
      exact absurd heq (by simp)
    | some item =>
      rw [hfind] at heq
      by_cases hdup : db.carts.any (fun c => c.user == u && c.menuitem == mid) = true
      · simp [hdup] at heq
      · rw [Bool.not_eq_true] at hdup
        by_cases hq : qty ≤ 0
        · simp [hdup, hq] at heq
        · simp only [hdup, Bool.false_eq_true, if_false, hq, if_true,
            Except.ok.injEq, reduceIte] at heq
          subst heq
          refine ⟨⟨?_, hinv.2⟩, ?_, fun oi hm => Or.inl hm⟩
          · intro c hm
            rcases List.mem_append.mp hm with hold | hnew
            · exact hinv.1 c hold
            · rw [List.mem_singleton] at hnew
              subst hnew
              rfl
          · intro c hm
            rcases List.mem_append.mp hm with hold | hnew
            · exact Or.inl hold
            · rw [List.mem_singleton] at hnew
              subst hnew
              exact Or.inr (by simp [menuPriceAt, hfind])
  | clearCart u =>
    by_cases hemp : (db.carts.filter (fun c => c.user == u)).isEmpty = true
    · have h2 : (cartClear db u).2 = db := by simp [cartClear, hemp]
      rw [h2]
      exact invariant_mono db db hinv (fun _ h => h) (fun _ h => h)
    · rw [Bool.not_eq_true] at hemp
      have h2 : (cartClear db u).2 =
          { db with carts := db.carts.filter (fun c => !(c.user == u)) } := by
        simp [cartClear, hemp]
      rw [h2]
      exact invariant_mono db _ hinv
        (fun c hm => (List.mem_filter.mp hm).1) (fun _ h => h)
  | createOrder u d o heq =>
    unfold orderCreate at heq
    by_cases hemp : (db.carts.filter (fun c => c.user == u)).isEmpty = true
    · simp [hemp] at heq
    · rw [Bool.not_eq_true] at hemp
      simp only [hemp, Bool.false_eq_true, if_false, Except.ok.injEq,
        Prod.mk.injEq, reduceIte] at heq
      obtain ⟨hdb2, _⟩ := heq
      subst hdb2
      refine ⟨⟨?_, ?_⟩, ?_, ?_⟩
      · intro c hm
        exact hinv.1 c (List.mem_filter.mp hm).1
      · intro oi hm
        rcases List.mem_append.mp hm with hold | hnew
        · exact hinv.2 oi hold
        · rw [List.mem_map] at hnew
          obtain ⟨c, hcm, rfl⟩ := hnew
          exact hinv.1 c (List.mem_filter.mp hcm).1
      · intro c hm
        exact Or.inl (List.mem_filter.mp hm).1
      · intro oi hm
        rcases List.mem_append.mp hm with hold | hnew
        · exact Or.inl hold
        · rw [List.mem_map] at hnew
          obtain ⟨c, hcm, rfl⟩ := hnew
          exact Or.inr ⟨c, (List.mem_filter.mp hcm).1, rfl, rfl, rfl, rfl⟩
  | deleteOrder u oid =>
    by_cases hmgr : inGroup db u "manager" = true
    · cases hford : db.orders.find? (fun o => o.id == oid) with
      | none =>
        have h2 : (singleOrderDelete db u oid).2 = db := by
          simp [singleOrderDelete, hmgr, hford]
        rw [h2]
        exact invariant_mono db db hinv (fun _ h => h) (fun _ h => h)
      | some o2 =>
        have h2 : (singleOrderDelete db u oid).2 =
            { db with
              orders := db.orders.filter (fun o => !(o.id == oid)),
              orderItems := db.orderItems.filter (fun oi => !(oi.order == oid)) } := by
          simp [singleOrderDelete, hmgr, hford]
        rw [h2]
        exact invariant_mono db _ hinv (fun _ h => h)
          (fun oi hm => (List.mem_filter.mp hm).1)
    · rw [Bool.not_eq_true] at hmgr
      have h2 : (singleOrderDelete db u oid).2 = db := by
        simp [singleOrderDelete, hmgr]
      rw [h2]
      exact invariant_mono db db hinv (fun _ h => h) (fun _ h => h)
  | updateMenuItem mid title p cat feat =>
    exact invariant_mono db _ hinv (fun _ h => h) (fun _ h => h)
  | patchOrder oid crew st =>
    exact invariant_mono db _ hinv (fun _ h => h) (fun _ h => h)
  | addRoster gname username =>
    have hcc : (groupUsersAdd db gname username).2.carts = db.carts := by
      unfold groupUsersAdd
      cases hf : db.users.find? (fun u => u.username == username) with
      | none => rfl
      | some user =>
        by_cases hgr : db.groups.any (fun g => g.name == gname) = true
        · simp [hgr]
        · rw [Bool.not_eq_true] at hgr
          simp [hgr]
    have hoo : (groupUsersAdd db gname username).2.orderItems = db.orderItems := by
      unfold groupUsersAdd
      cases hf : db.users.find? (fun u => u.username == username) with
      | none => rfl
      | some user =>
        by_cases hgr : db.groups.any (fun g => g.name == gname) = true
        · simp [hgr]
        · rw [Bool.not_eq_true] at hgr
          simp [hgr]
    exact invariant_mono db _ hinv (fun c hm => hcc ▸ hm) (fun oi hm => hoo ▸ hm)
  | delRoster gname pk r heq =>
    unfold groupUsersDelete at heq
    cases hfu : db.users.find? (fun u => u.id == pk) with
    | none =>
      rw [hfu] at heq
      simp only [Option.some.injEq, Prod.mk.injEq] at heq
      obtain ⟨_, hdb⟩ := heq
      subst hdb
      exact invariant_mono db db hinv (fun _ h => h) (fun _ h => h)
    | some user =>
      rw [hfu] at heq
      cases hfg : db.groups.find? (fun g => g.name == gname) with
      | none =>
        rw [hfg] at heq
        exact absurd heq (by simp)
      | some g =>
        rw [hfg] at heq
        by_cases hm : g.members.contains pk = true
        · simp only [hm, if_true, Option.some.injEq, Prod.mk.injEq, reduceIte] at heq
          obtain ⟨_, hdb⟩ := heq
          subst hdb
          exact invariant_mono db _ hinv (fun _ h => h) (fun _ h => h)
        · rw [Bool.not_eq_true] at hm
          simp only [hm, Bool.false_eq_true, if_false, Option.some.injEq,
            Prod.mk.injEq, reduceIte] at heq
          obtain ⟨_, hdb⟩ := heq
          subst hdb
          exact invariant_mono db db hinv (fun _ h => h) (fun _ h => h)

/-- Witness for C5: the invariant holds of c1db and is preserved across
a cart-clear step. -/
theorem step_preserves_price_invariant_witness :
    priceInv c1db ∧
    (priceInv (cartClear c1db 1).2 ∧
     (∀ c ∈ (cartClear c1db 1).2.carts, c ∈ c1db.carts ∨
        menuPriceAt c1db c.menuitem = some c.unit_price) ∧
     (∀ oi ∈ (cartClear c1db 1).2.orderItems, oi ∈ c1db.orderItems ∨
        ∃ c ∈ c1db.carts, oi.menuitem = c.menuitem ∧ oi.quantity = c.quantity ∧
          oi.unit_price = c.unit_price ∧ oi.price = c.price)) := by
  have hinv : priceInv c1db := by
    constructor
    · intro c hm
      simp only [c1db, List.mem_cons, List.not_mem_nil, or_false] at hm
      rcases hm with rfl | rfl <;> norm_num
    · intro oi hm
      simp [c1db] at hm
  exact ⟨hinv,
    step_preserves_price_invariant c1db (cartClear c1db 1).2 hinv
      (Step.clearCart 1 c1db)⟩

end LittleLemon
